import Mathlib

/-!
# The ptnet paravirtualized network driver: lifecycle and media control

A shallow embedding of `sys/dev/netmap/if_ptnet.c`.  The driver functions
(`ptnet_probe`, `ptnet_attach`, `ptnet_detach`, `ptnet_suspend`, `ptnet_resume`,
`ptnet_shutdown`, `ptnet_media_change`, `ptnet_media_status`) are translated
statement by statement into functions on an explicit `World`: the bus device
record, the driver soft context, the heap of interface objects, the console and
the ordered trace of kernel calls and interface stores the driver performed.

The kernel services the driver calls (`if_alloc`, `if_initname`, `ifmedia_*`,
`ether_ifattach`, `mtx_init`, ...) are not part of the driver; they are modelled
by their effect on the fields the driver reads or writes.  The two PCI
identifiers come from a header that is not part of this file and are taken as a
parameter (`pci_ids`).
-/

namespace Ptnet

/-! ## Constants of the host kernel headers -/

/-- Error number `ENXIO` (sys/errno.h). -/
def ENXIO : Int := 6
/-- Error number `ENOMEM` (sys/errno.h). -/
def ENOMEM : Int := 12
/-- Error number `EINVAL` (sys/errno.h). -/
def EINVAL : Int := 22
/-- Probe priority `BUS_PROBE_DEFAULT` (sys/bus.h). -/
def BUS_PROBE_DEFAULT : Int := -20

/-- Interface type `IFT_ETHER` (net/if_types.h). -/
def IFT_ETHER : Nat := 6
/-- Length of an Ethernet address (net/ethernet.h). -/
def ETHER_ADDR_LEN : Nat := 6
/-- Length of a plain Ethernet header (net/ethernet.h). -/
def ETHER_HDR_LEN : Nat := 14
/-- Default Ethernet MTU (net/ethernet.h). -/
def ETHERMTU : Nat := 1500
/-- The value of `sizeof(struct ether_vlan_header)`: two addresses, the
encapsulation protocol, the tag and the protocol (net/ethernet.h). -/
def sizeof_ether_vlan_header : Nat := 6 + 6 + 2 + 2 + 2
/-- Size of the interface name buffer `if_xname` (net/if.h). -/
def IFNAMSIZ : Nat := 16
/-- The value of `sizeof(sc->core_mtx_name)`, from `char core_mtx_name[16]`. -/
def sizeof_core_mtx_name : Nat := 16

/-- Interface flag `IFF_BROADCAST` (net/if.h). -/
def IFF_BROADCAST : Nat := 0x2
/-- Interface flag `IFF_SIMPLEX` (net/if.h). -/
def IFF_SIMPLEX : Nat := 0x800
/-- Interface flag `IFF_MULTICAST` (net/if.h). -/
def IFF_MULTICAST : Nat := 0x8000
/-- Capability `IFCAP_VLAN_MTU` (net/if.h). -/
def IFCAP_VLAN_MTU : Nat := 0x8
/-- Capability `IFCAP_JUMBO_MTU` (net/if.h). -/
def IFCAP_JUMBO_MTU : Nat := 0x20

/-- Media type Ethernet (net/if_media.h). -/
def IFM_ETHER : Nat := 0x20
/-- Media type Token Ring (net/if_media.h). -/
def IFM_TOKEN : Nat := 0x40
/-- Ethernet subtype 10GBASE-T (net/if_media.h). -/
def IFM_10G_T : Nat := 26
/-- Option bit full duplex (net/if_media.h). -/
def IFM_FDX : Nat := 0x00100000
/-- Subtype "no media" (net/if_media.h). -/
def IFM_NONE : Nat := 2
/-- Mask of the media-type field (net/if_media.h). -/
def IFM_NMASK : Nat := 0x000000e0
/-- Mask of the subtype field (net/if_media.h). -/
def IFM_TMASK : Nat := 0x0000001f
/-- Mask of the instance field (net/if_media.h). -/
def IFM_IMASK : Nat := 0xf0000000
/-- Mask of the type-specific option bits (net/if_media.h). -/
def IFM_OMASK : Nat := 0x0000ff00
/-- Mask of the mode bits (net/if_media.h). -/
def IFM_MMASK : Nat := 0x00070000
/-- Mask of the global option bits (net/if_media.h). -/
def IFM_GMASK : Nat := 0x0ff00000
/-- Status bit "status is valid" (net/if_media.h). -/
def IFM_AVALID : Nat := 0x1
/-- Status bit "interface attached to a working network" (net/if_media.h). -/
def IFM_ACTIVE : Nat := 0x2

/-- The macro `IFM_TYPE(x)`: the media-type field of a media word. -/
def IFM_TYPE (x : Nat) : Nat := x &&& IFM_NMASK

/-- The macro `IF_Gbps(x)`, which expands through `IF_Mbps` and `IF_Kbps` to
`x * 1000 * 1000 * 1000`. -/
def IF_Gbps (x : Nat) : Nat := x * 1000 * 1000 * 1000

/-- The two PCI identifiers the probe compares against.  Their header is not
among the sources, so they are a parameter of the development. -/
structure pci_ids where
  PTNETMAP_PCI_VENDOR_ID : Nat
  PTNETMAP_PCI_NETIF_ID : Nat
  deriving DecidableEq

/-! ## Data model -/

/-- State of a bus device as kept by the host bus framework (sys/bus.h). -/
inductive device_state
  | DS_NOTPRESENT
  | DS_ALIVE
  | DS_ATTACHED
  | DS_BUSY
  deriving DecidableEq

/-- The bus device record behind a `device_t`, owned by the host: the PCI
identifiers, the name and unit, the description and the attachment state. -/
structure device where
  vendor : Nat
  devid : Nat
  name : String
  unit : Nat
  desc : Option String
  state : device_state
  deriving DecidableEq

/-- The driver functions that are installed as callbacks. -/
inductive Callback
  | ptnet_init
  | ptnet_start
  | ptnet_media_change
  | ptnet_media_status
  deriving DecidableEq

/-- The fields of `struct ifnet` the driver or `ether_ifattach` touches.
`if_softc` records whether the back-pointer to the soft context is set,
`published` whether the interface is in the host list of interfaces and
`lladdr` the link-layer address it was published with. -/
structure ifnet where
  if_type : Nat
  if_xname : String
  if_dname : String
  if_dunit : Nat
  if_baudrate : Nat
  if_softc : Bool
  if_flags : Nat
  if_init : Option Callback
  if_start : Option Callback
  ifq_maxlen : Nat
  ifq_drv_maxlen : Nat
  altq_ready : Bool
  ifi_hdrlen : Nat
  if_capabilities : Nat
  if_capenable : Nat
  if_addrlen : Nat
  if_mtu : Nat
  lladdr : List Nat
  published : Bool
  deriving DecidableEq

/-- One entry of a media registry (`struct ifmedia_entry`). -/
structure ifmedia_entry where
  ifm_media : Nat
  ifm_data : Nat
  deriving DecidableEq

/-- The media registry `struct ifmedia`. -/
structure ifmedia where
  ifm_mask : Nat
  ifm_media : Nat
  ifm_cur : Option ifmedia_entry
  ifm_list : List ifmedia_entry
  ifm_change : Option Callback
  ifm_status : Option Callback
  deriving DecidableEq

/-- The part of `struct mtx` the driver depends on: whether the lock object is
initialized, and its name. -/
structure mtx where
  lo_initialized : Bool
  lo_name : String
  deriving DecidableEq

/-- The driver soft context `struct ptnet_softc`.  `dev` records whether the
back-pointer to the device record is set; `ifp` is the interface handle, with
`none` for `NULL`. -/
structure ptnet_softc where
  dev : Bool
  ifp : Option Nat
  media : ifmedia
  core_mtx : mtx
  core_mtx_name : String
  hwaddr : List Nat
  deriving DecidableEq

/-- The media request record `struct ifmediareq`. -/
structure ifmediareq where
  ifm_name : String
  ifm_current : Nat
  ifm_mask : Nat
  ifm_status : Nat
  ifm_active : Nat
  ifm_count : Nat
  deriving DecidableEq

/-- The interface fields the driver stores to directly. -/
inductive IfField
  | if_softc
  | if_flags
  | if_init
  | if_start
  | ifq_drv_maxlen
  | ifi_hdrlen
  | if_capabilities
  | if_capenable
  deriving DecidableEq

/-- One step the driver performed: a kernel call with the arguments that
matter, or a direct store to a field of an interface object. -/
inductive Event
  | device_set_desc (desc : String)
  | mtx_init (name : String)
  | mtx_destroy (was_initialized : Bool)
  | if_alloc (result : Option Nat)
  | if_initname (ifp : Nat) (name : String) (unit : Nat)
  | if_initbaudrate (ifp : Nat) (baud : Nat)
  | store (ifp : Nat) (field : IfField)
  | IFQ_SET_MAXLEN (ifp : Nat) (len : Nat)
  | IFQ_SET_READY (ifp : Nat)
  | ifmedia_init
  | ifmedia_add (mword : Nat)
  | ifmedia_set (mword : Nat)
  | ifmedia_removeall
  | memset_hwaddr
  | ether_ifattach (ifp : Nat) (lla : List Nat)
  | ether_ifdetach (ifp : Option Nat)
  | if_free (ifp : Option Nat)
  deriving DecidableEq

/-- The whole state the driver acts on. -/
structure World where
  dev : device
  sc : ptnet_softc
  heap : List (Nat × ifnet)
  next : Nat
  trace : List Event
  console : List String
  deriving DecidableEq

/-- An all-zero interface object. -/
def ifnet_zero : ifnet :=
  { if_type := 0, if_xname := "", if_dname := "", if_dunit := 0, if_baudrate := 0,
    if_softc := false, if_flags := 0, if_init := none, if_start := none,
    ifq_maxlen := 0, ifq_drv_maxlen := 0, altq_ready := false, ifi_hdrlen := 0,
    if_capabilities := 0, if_capenable := 0, if_addrlen := 0, if_mtu := 0,
    lladdr := [], published := false }

/-- An all-zero media registry. -/
def ifmedia_zero : ifmedia :=
  { ifm_mask := 0, ifm_media := 0, ifm_cur := none, ifm_list := [],
    ifm_change := none, ifm_status := none }

/-- An all-zero soft context, as the bus framework hands it to the driver. -/
def softc_zero : ptnet_softc :=
  { dev := false, ifp := none, media := ifmedia_zero,
    core_mtx := { lo_initialized := false, lo_name := "" },
    core_mtx_name := "", hwaddr := List.replicate ETHER_ADDR_LEN 0 }

/-- The world of a device the host has discovered but not attached: the soft
context is zeroed, no interface object exists, nothing has been done yet. -/
def World.fresh (vendor devid : Nat) (name : String) (unit : Nat) : World :=
  { dev := { vendor := vendor, devid := devid, name := name, unit := unit,
             desc := none, state := device_state.DS_NOTPRESENT },
    sc := softc_zero, heap := [], next := 1, trace := [], console := [] }

/-! ## Model of the kernel services the driver calls -/

/-- Record one step in the trace. -/
def World.log (w : World) (e : Event) : World :=
  { w with trace := w.trace ++ [e] }

/-- Kernel `printf`: one more line on the console. -/
def printf (w : World) (s : String) : World :=
  { w with console := w.console ++ [s] }

/-- What `snprintf(buf, size, "%s", s)` leaves in `buf`: at most `size - 1`
characters of `s`. -/
def snprintf (size : Nat) (s : String) : String :=
  String.mk (s.data.take (size - 1))

/-- Accessor `pci_get_vendor`. -/
def pci_get_vendor (d : device) : Nat := d.vendor

/-- Accessor `pci_get_device`. -/
def pci_get_device (d : device) : Nat := d.devid

/-- Accessor `device_get_name`. -/
def device_get_name (d : device) : String := d.name

/-- Accessor `device_get_unit`. -/
def device_get_unit (d : device) : Nat := d.unit

/-- Accessor `device_get_nameunit`: the name followed by the unit number. -/
def device_get_nameunit (d : device) : String := d.name ++ toString d.unit

/-- The bus framework test `device_is_attached`: the state is at least
`DS_ATTACHED`. -/
def device_is_attached (d : device) : Bool :=
  match d.state with
  | device_state.DS_ATTACHED => true
  | device_state.DS_BUSY => true
  | _ => false

/-- Kernel `device_set_desc`: store the description in the device record. -/
def device_set_desc (w : World) (desc : String) : World :=
  ({ w with dev := { w.dev with desc := some desc } }).log (Event.device_set_desc desc)

/-- Kernel `device_printf`: a console line that starts with the name and unit. -/
def device_printf (w : World) (s : String) : World :=
  printf w (device_get_nameunit w.dev ++ ": " ++ s)

/-- Kernel `mtx_init` on the core lock: the lock object becomes initialized
under the given name. -/
def mtx_init (w : World) (name : String) : World :=
  ({ w with sc := { w.sc with core_mtx := { lo_initialized := true, lo_name := name } } }).log
    (Event.mtx_init name)

/-- Kernel `mtx_destroy` on the core lock: the lock object is no longer
initialized.  The trace keeps whether it was initialized when the call came. -/
def mtx_destroy (w : World) : World :=
  ({ w with sc := { w.sc with core_mtx := { w.sc.core_mtx with lo_initialized := false } } }).log
    (Event.mtx_destroy w.sc.core_mtx.lo_initialized)

/-- Look an interface object up by address. -/
def heap_get (h : List (Nat × ifnet)) (p : Nat) : Option ifnet :=
  h.lookup p

/-- Apply a change to the interface object at an address. -/
def heap_modify (h : List (Nat × ifnet)) (p : Nat) (f : ifnet → ifnet) : List (Nat × ifnet) :=
  h.map (fun e => if e.1 = p then (e.1, f e.2) else e)

/-- Remove the interface object at an address. -/
def heap_free (h : List (Nat × ifnet)) (p : Nat) : List (Nat × ifnet) :=
  h.filter (fun e => e.1 ≠ p)

/-- Kernel `if_alloc(type)`.  Whether the allocation succeeds is not decided by
the driver, so it is an input: on success a zeroed interface object of the given
type appears at a fresh address, on failure the result is `NULL`. -/
def if_alloc (w : World) (type : Nat) (ok : Bool) : Option Nat × World :=
  if ok then
    (some w.next,
      ({ w with heap := (w.next, { ifnet_zero with if_type := type }) :: heap_free w.heap w.next,
                next := w.next + 1 }).log (Event.if_alloc (some w.next)))
  else
    (none, w.log (Event.if_alloc none))

/-- A direct store of the driver to a field of the interface object at `p`. -/
def ifnet_store (w : World) (p : Nat) (field : IfField) (f : ifnet → ifnet) : World :=
  ({ w with heap := heap_modify w.heap p f }).log (Event.store p field)

/-- Kernel `if_initname`: records the driver name and unit and prints them, name
first, into the `IFNAMSIZ` bytes of `if_xname`.  (A unit is a natural number
here, so the unit-less form `IF_DUNIT_NONE` does not arise.) -/
def if_initname (w : World) (p : Nat) (name : String) (unit : Nat) : World :=
  ({ w with heap := heap_modify w.heap p (fun i =>
      { i with if_dname := name, if_dunit := unit,
               if_xname := snprintf IFNAMSIZ (name ++ toString unit) }) }).log
    (Event.if_initname p name unit)

/-- Kernel `if_initbaudrate`. -/
def if_initbaudrate (w : World) (p : Nat) (baud : Nat) : World :=
  ({ w with heap := heap_modify w.heap p (fun i => { i with if_baudrate := baud }) }).log
    (Event.if_initbaudrate p baud)

/-- The macro `IFQ_SET_MAXLEN` on the send queue of the interface. -/
def IFQ_SET_MAXLEN (w : World) (p : Nat) (len : Nat) : World :=
  ({ w with heap := heap_modify w.heap p (fun i => { i with ifq_maxlen := len }) }).log
    (Event.IFQ_SET_MAXLEN p len)

/-- The macro `IFQ_SET_READY` on the send queue of the interface. -/
def IFQ_SET_READY (w : World) (p : Nat) : World :=
  ({ w with heap := heap_modify w.heap p (fun i => { i with altq_ready := true }) }).log
    (Event.IFQ_SET_READY p)

/-- Kernel `ifmedia_init`: an empty registry with the given mask and callbacks. -/
def ifmedia_init (w : World) (dontcare_mask : Nat) (change status : Callback) : World :=
  ({ w with sc := { w.sc with media :=
      { ifm_mask := dontcare_mask, ifm_media := 0, ifm_cur := none, ifm_list := [],
        ifm_change := some change, ifm_status := some status } } }).log Event.ifmedia_init

/-- Kernel `ifmedia_add`: a new entry at the head of the registry. -/
def ifmedia_add (w : World) (mword data : Nat) : World :=
  ({ w with sc := { w.sc with media := { w.sc.media with
      ifm_list := { ifm_media := mword, ifm_data := data } :: w.sc.media.ifm_list } } }).log
    (Event.ifmedia_add mword)

/-- Kernel `ifmedia_match`: the last entry of the registry that agrees with the
target outside the mask. -/
def ifmedia_match (m : ifmedia) (target mask : Nat) : Option ifmedia_entry :=
  (m.ifm_list.filter (fun e =>
    (e.ifm_media &&& (0xffffffff ^^^ mask)) = (target &&& (0xffffffff ^^^ mask)))).getLast?

/-- Kernel `ifmedia_set`: select the entry that matches the target; when none
does, fall back to the "no media" word of the same type, adding it if needed. -/
def ifmedia_set (w : World) (target : Nat) : World :=
  let w := w.log (Event.ifmedia_set target)
  match ifmedia_match w.sc.media target w.sc.media.ifm_mask with
  | some e => { w with sc := { w.sc with media := { w.sc.media with ifm_cur := some e } } }
  | none =>
    let w := printf w "ifmedia_set: no match\n"
    let target := (target &&& IFM_NMASK) ||| IFM_NONE
    match ifmedia_match w.sc.media target w.sc.media.ifm_mask with
    | some e => { w with sc := { w.sc with media := { w.sc.media with ifm_cur := some e } } }
    | none =>
      let w := ifmedia_add w target 0
      { w with sc := { w.sc with media := { w.sc.media with
          ifm_cur := ifmedia_match w.sc.media target w.sc.media.ifm_mask } } }

/-- Kernel `ifmedia_removeall`: every entry leaves the registry. -/
def ifmedia_removeall (w : World) : World :=
  ({ w with sc := { w.sc with media := { w.sc.media with ifm_list := [] } } }).log
    Event.ifmedia_removeall

/-- Kernel `ether_ifattach`: sets the Ethernet defaults of the interface (address
length, plain Ethernet header length, MTU, a default baud rate when none is
set), copies the link-layer address and publishes the interface to the host
network stack. -/
def ether_ifattach (w : World) (p : Nat) (lla : List Nat) : World :=
  ({ w with heap := heap_modify w.heap p (fun i =>
      { i with if_addrlen := ETHER_ADDR_LEN, ifi_hdrlen := ETHER_HDR_LEN, if_mtu := ETHERMTU,
               if_baudrate := if i.if_baudrate = 0 then 10 * 1000 * 1000 else i.if_baudrate,
               lladdr := lla.take ETHER_ADDR_LEN, published := true }) }).log
    (Event.ether_ifattach p lla)

/-- Kernel `ether_ifdetach`: the interface leaves the host network stack.  The
trace keeps the argument, so a `NULL` argument stays visible. -/
def ether_ifdetach (w : World) (ifp : Option Nat) : World :=
  match ifp with
  | some p =>
    ({ w with heap := heap_modify w.heap p (fun i => { i with published := false }) }).log
      (Event.ether_ifdetach (some p))
  | none => w.log (Event.ether_ifdetach none)

/-- Kernel `if_free`: the interface object is released. -/
def if_free (w : World) (ifp : Option Nat) : World :=
  match ifp with
  | some p => ({ w with heap := heap_free w.heap p }).log (Event.if_free (some p))
  | none => w.log (Event.if_free none)

/-! ## The driver -/

/-- The macro `PTNET_CORE_LOCK_INIT`: print the name and unit of the device into
`core_mtx_name` and initialize the core lock under that name. -/
def PTNET_CORE_LOCK_INIT (w : World) : World :=
  let w := { w with sc := { w.sc with
    core_mtx_name := snprintf sizeof_core_mtx_name (device_get_nameunit w.dev) } }
  mtx_init w w.sc.core_mtx_name

/-- The macro `PTNET_CORE_LOCK_FINI`. -/
def PTNET_CORE_LOCK_FINI (w : World) : World :=
  mtx_destroy w

/-- The function `ptnet_probe`: a device is claimed when both PCI identifiers
are the expected ones. -/
def ptnet_probe (ids : pci_ids) (w : World) : Int × World :=
  let w := printf w "ptnet_probe\n"
  if pci_get_vendor w.dev ≠ ids.PTNETMAP_PCI_VENDOR_ID ∨
      pci_get_device w.dev ≠ ids.PTNETMAP_PCI_NETIF_ID then
    ( ENXIO, w)
  else
    let w := device_set_desc w "ptnet network adapter"
    (BUS_PROBE_DEFAULT, w)

/-- The function `ptnet_attach`.  The argument `alloc_ok` is the outcome of the
interface allocation. -/
def ptnet_attach (w : World) (alloc_ok : Bool) : Int × World :=
  let w := printf w "ptnet_attach\n"
  let w := { w with sc := { w.sc with dev := true } }
  let w := PTNET_CORE_LOCK_INIT w
  let r := if_alloc w IFT_ETHER alloc_ok
  let w := { r.2 with sc := { r.2.sc with ifp := r.1 } }
  match r.1 with
  | none =>
    let w := device_printf w "Failed to allocate ifnet\n"
    (ENOMEM, w)
  | some ifp =>
    let w := if_initname w ifp (device_get_name w.dev) (device_get_unit w.dev)
    let w := if_initbaudrate w ifp (IF_Gbps 10)
    let w := ifnet_store w ifp IfField.if_softc (fun i => { i with if_softc := true })
    let w := ifnet_store w ifp IfField.if_flags (fun i =>
      { i with if_flags := IFF_BROADCAST ||| IFF_MULTICAST ||| IFF_SIMPLEX })
    let w := ifnet_store w ifp IfField.if_init (fun i =>
      { i with if_init := some Callback.ptnet_init })
    let w := ifnet_store w ifp IfField.if_start (fun i =>
      { i with if_start := some Callback.ptnet_start })
    let w := IFQ_SET_MAXLEN w ifp 255
    let w := ifnet_store w ifp IfField.ifq_drv_maxlen (fun i => { i with ifq_drv_maxlen := 255 })
    let w := IFQ_SET_READY w ifp
    let w := ifmedia_init w IFM_IMASK Callback.ptnet_media_change Callback.ptnet_media_status
    let w := ifmedia_add w (IFM_ETHER ||| IFM_10G_T ||| IFM_FDX) 0
    let w := ifmedia_set w (IFM_ETHER ||| IFM_10G_T ||| IFM_FDX)
    let w := ({ w with sc := { w.sc with hwaddr := List.replicate ETHER_ADDR_LEN 0 } }).log
      Event.memset_hwaddr
    let w := ether_ifattach w ifp w.sc.hwaddr
    let w := ifnet_store w ifp IfField.ifi_hdrlen (fun i =>
      { i with ifi_hdrlen := sizeof_ether_vlan_header })
    let w := ifnet_store w ifp IfField.if_capabilities (fun i =>
      { i with if_capabilities := i.if_capabilities ||| (IFCAP_JUMBO_MTU ||| IFCAP_VLAN_MTU) })
    let w := ifnet_store w ifp IfField.if_capenable (fun i =>
      { i with if_capenable := i.if_capabilities })
    (0, w)

/-- The function `ptnet_detach`. -/
def ptnet_detach (w : World) : Int × World :=
  let w := printf w "ptnet_detach\n"
  let w := if device_is_attached w.dev then ether_ifdetach w w.sc.ifp else w
  let w := ifmedia_removeall w
  let w :=
    match w.sc.ifp with
    | some _ =>
      let w := if_free w w.sc.ifp
      { w with sc := { w.sc with ifp := none } }
    | none => w
  let w := PTNET_CORE_LOCK_FINI w
  (0, w)

/-- The function `ptnet_suspend`. -/
def ptnet_suspend (w : World) : Int × World :=
  (0, w)

/-- The function `ptnet_resume`. -/
def ptnet_resume (w : World) : Int × World :=
  (0, w)

/-- The function `ptnet_shutdown`: whatever `ptnet_suspend` does. -/
def ptnet_shutdown (w : World) : Int × World :=
  ptnet_suspend w

/-- The function `ptnet_init`: no statement with an effect. -/
def ptnet_init (w : World) : World := w

/-- The function `ptnet_start`: an empty body. -/
def ptnet_start (w : World) (_ifp : Nat) : World := w

/-- The function `ptnet_media_change`, called on the interface `ifp` of the
device: `ifp->if_softc` is the soft context (stored by `ptnet_attach`), whose
media word decides the result. -/
def ptnet_media_change (w : World) (_ifp : Nat) : Int × World :=
  let ifm := w.sc.media
  if IFM_TYPE ifm.ifm_media ≠ IFM_ETHER then
    (EINVAL, w)
  else
    (0, w)

/-- The function `ptnet_media_status`.  The condition of the source is the
literal `1`, a C truth value. -/
def ptnet_media_status (w : World) (_ifp : Nat) (ifmr : ifmediareq) : World × ifmediareq :=
  let ifmr := { ifmr with ifm_status := IFM_AVALID }
  let ifmr := { ifmr with ifm_active := IFM_ETHER }
  if (1 : Int) ≠ 0 then
    let ifmr := { ifmr with ifm_status := ifmr.ifm_status ||| IFM_ACTIVE }
    let ifmr := { ifmr with ifm_active := ifmr.ifm_active ||| (IFM_10G_T ||| IFM_FDX) }
    (w, ifmr)
  else
    let ifmr := { ifmr with ifm_active := ifmr.ifm_active ||| IFM_NONE }
    (w, ifmr)

/-! ## The host bus framework around the driver -/

/-- Error number `EBUSY` (sys/errno.h). -/
def EBUSY : Int := 16

/-- Host bus framework, `device_attach`: runs the attach method of the driver
and records the outcome in the device state, `DS_ATTACHED` when the method
returned 0 and `DS_NOTPRESENT` otherwise. -/
def device_attach (w : World) (alloc_ok : Bool) : Int × World :=
  let r := ptnet_attach w alloc_ok
  if r.1 ≠ 0 then
    (r.1, { r.2 with dev := { r.2.dev with state := device_state.DS_NOTPRESENT } })
  else
    (0, { r.2 with dev := { r.2.dev with state := device_state.DS_ATTACHED } })

/-- Host bus framework, `device_detach`: a busy device is refused, a device that
is not attached is left alone, otherwise the detach method of the driver runs
and on success the device state becomes `DS_NOTPRESENT`. -/
def device_detach (w : World) : Int × World :=
  if w.dev.state = device_state.DS_BUSY then (EBUSY, w)
  else if w.dev.state ≠ device_state.DS_ATTACHED then (0, w)
  else
    let r := ptnet_detach w
    if r.1 ≠ 0 then r
    else (0, { r.2 with dev := { r.2.dev with state := device_state.DS_NOTPRESENT } })

/-- The lifecycle requests the host issues for a device. -/
inductive HostOp
  | attach (alloc_ok : Bool)
  | detach
  | suspend
  | resume
  | shutdown
  deriving DecidableEq

/-- One lifecycle request.  The host attaches only a device that is not yet
probed and attached (`DS_NOTPRESENT`); the three power requests go straight to
the driver methods. -/
def host_step (w : World) : HostOp → World
  | HostOp.attach alloc_ok =>
    if w.dev.state = device_state.DS_NOTPRESENT then (device_attach w alloc_ok).2 else w
  | HostOp.detach => (device_detach w).2
  | HostOp.suspend => (ptnet_suspend w).2
  | HostOp.resume => (ptnet_resume w).2
  | HostOp.shutdown => (ptnet_shutdown w).2

/-- A sequence of lifecycle requests, first to last. -/
def host_run (w : World) (ops : List HostOp) : World :=
  ops.foldl host_step w

/-- The three power-management requests. -/
inductive PowerOp
  | suspend
  | resume
  | shutdown
  deriving DecidableEq

/-- One power-management request, through the driver method. -/
def power_step (w : World) : PowerOp → Int × World
  | PowerOp.suspend => ptnet_suspend w
  | PowerOp.resume => ptnet_resume w
  | PowerOp.shutdown => ptnet_shutdown w

/-- A sequence of power-management requests: the values returned, in order, and
the final world. -/
def power_run (w : World) : List PowerOp → List Int × World
  | [] => ([], w)
  | op :: ops =>
    let r := power_step w op
    let rest := power_run r.2 ops
    (r.1 :: rest.1, rest.2)

/-! ## Properties of traces -/

/-- Whether a step is a call of `ether_ifattach`. -/
def Event.is_ether_ifattach : Event → Bool
  | Event.ether_ifattach _ _ => true
  | _ => false

/-- Whether a step is a call of `ether_ifdetach`. -/
def Event.is_ether_ifdetach : Event → Bool
  | Event.ether_ifdetach _ => true
  | _ => false

/-- Whether a step is a call of `if_free`. -/
def Event.is_if_free : Event → Bool
  | Event.if_free _ => true
  | _ => false

/-- Whether a step is a call of `mtx_init`. -/
def Event.is_mtx_init : Event → Bool
  | Event.mtx_init _ => true
  | _ => false

/-- Whether a step is a call of `mtx_destroy`. -/
def Event.is_mtx_destroy : Event → Bool
  | Event.mtx_destroy _ => true
  | _ => false

/-- Whether a step stores to a field of an interface object, directly or through
one of the send-queue macros. -/
def Event.is_ifnet_write : Event → Bool
  | Event.store _ _ => true
  | Event.IFQ_SET_MAXLEN _ _ => true
  | Event.IFQ_SET_READY _ => true
  | Event.if_initname _ _ _ => true
  | Event.if_initbaudrate _ _ => true
  | _ => false

/-- The steps up to the first publication of an interface, that call excluded. -/
def before_publication (t : List Event) : List Event :=
  t.takeWhile (fun e => !e.is_ether_ifattach)

/-- The steps after the first publication of an interface. -/
def after_publication (t : List Event) : List Event :=
  (t.dropWhile (fun e => !e.is_ether_ifattach)).drop 1

/-- Publication is the last configuration step: the interface is published and
no interface field is written afterwards. -/
def publication_is_final (t : List Event) : Prop :=
  t.any Event.is_ether_ifattach = true ∧ (after_publication t).any Event.is_ifnet_write = false

/-- Whether a `NULL` interface handle was passed to `ether_ifdetach` or `if_free`. -/
def null_handle_passed (t : List Event) : Bool :=
  t.any (fun e => e = Event.ether_ifdetach none ∨ e = Event.if_free none)

/-- Whether some interface object was released more than once. -/
def freed_twice (t : List Event) : Bool :=
  t.any (fun e => e.is_if_free && decide (2 ≤ t.count e))

/-- Whether the media registry was torn down at a point where no `ifmedia_init`
had come before; the flag says whether one has been seen. -/
def registry_teardown_uninitialized : List Event → Bool → Bool
  | [], _ => false
  | Event.ifmedia_init :: t, _ => registry_teardown_uninitialized t true
  | Event.ifmedia_removeall :: t, seen => !seen || registry_teardown_uninitialized t seen
  | _ :: t, seen => registry_teardown_uninitialized t seen

/-- Whether the core lock was destroyed while it was not initialized. -/
def lock_destroy_uninitialized (t : List Event) : Bool :=
  t.any (fun e => e = Event.mtx_destroy false)

/-- Safety of a detach on a context whose whole history is in its trace: it
returns 0, passes no `NULL` handle to `ether_ifdetach` or `if_free`, releases no
interface object twice, and neither tears down a media registry nor destroys a
core lock that was never initialized. -/
def detach_safe (w : World) : Prop :=
  (ptnet_detach w).1 = 0 ∧
  null_handle_passed (ptnet_detach w).2.trace = false ∧
  freed_twice (ptnet_detach w).2.trace = false ∧
  registry_teardown_uninitialized (ptnet_detach w).2.trace false = false ∧
  lock_destroy_uninitialized (ptnet_detach w).2.trace = false

/-- The media word with everything but the media-type field replaced by the
corresponding bits of `other`. -/
def with_other_bits (m other : Nat) : Nat :=
  (m &&& IFM_NMASK) ||| (other &&& (0xffffffff ^^^ IFM_NMASK))

/-- The world with the media word of the context set to `m`. -/
def World.with_media_word (w : World) (m : Nat) : World :=
  { w with sc := { w.sc with media := { w.sc.media with ifm_media := m } } }

/-- Attach through the host bus framework, then detach at once. -/
def attach_detach (w : World) (alloc_ok : Bool) : Int × World :=
  ptnet_detach (device_attach w alloc_ok).2

/-- A context that never completed attach, built from a context `w0` that is
not attached: either attach was never run on it (`ran = false`), or attach ran
and failed at the interface allocation (`ran = true`). -/
def never_attached_context (w0 : World) (ran : Bool) : World :=
  if ran then (ptnet_attach w0 false).2 else w0

instance (t : List Event) : Decidable (publication_is_final t) := by
  unfold publication_is_final
  infer_instance

instance (w : World) : Decidable (detach_safe w) := by
  unfold detach_safe
  infer_instance

/-- The invariant of the lifecycle: the interface handle is set exactly when the
host reports the device attached, the device is either not present or attached,
and no `NULL` handle was ever passed to `ether_ifdetach` or `if_free`. -/
def lifecycle_inv (w : World) : Prop :=
  (w.sc.ifp ≠ none ↔ device_is_attached w.dev = true) ∧
  (w.dev.state = device_state.DS_NOTPRESENT ∨ w.dev.state = device_state.DS_ATTACHED) ∧
  null_handle_passed w.trace = false

end Ptnet

namespace Ptnet

/-! ## Explicit results of attach and detach -/

theorem snprintf_fits (size : Nat) (s : String) (h : s.length < size) : snprintf size s = s := by
  unfold snprintf
  have h1 : s.data.length ≤ size - 1 := by
    have : s.data.length = s.length := rfl
    omega
  rw [List.take_of_length_le h1]

theorem ifmedia_set_init_add (w : World) (msk x d : Nat) (c s : Callback) :
    ifmedia_set (ifmedia_add (ifmedia_init w msk c s) x d) x =
      { w with
        sc := { w.sc with media :=
          { ifm_mask := msk, ifm_media := 0,
            ifm_cur := some { ifm_media := x, ifm_data := d },
            ifm_list := [{ ifm_media := x, ifm_data := d }],
            ifm_change := some c, ifm_status := some s } },
        trace := w.trace ++ [Event.ifmedia_init, Event.ifmedia_add x, Event.ifmedia_set x] } := by
  simp [ifmedia_init, ifmedia_add, ifmedia_set, ifmedia_match, World.log]

theorem heap_modify_head (h : List (Nat × ifnet)) (p : Nat) (v : ifnet) (f : ifnet → ifnet) :
    heap_modify ((p, v) :: heap_free h p) p f = (p, f v) :: heap_free h p := by
  have htail : ∀ t : List (Nat × ifnet), heap_modify (heap_free t p) p f = heap_free t p := by
    intro t
    induction t with
    | nil => rfl
    | cons e t ih =>
      by_cases he : e.1 = p
      · simpa [heap_modify, heap_free, List.filter_cons, he] using ih
      · simpa [heap_modify, heap_free, List.filter_cons, he] using ih
  have hhead : heap_modify ((p, v) :: heap_free h p) p f
      = (p, f v) :: heap_modify (heap_free h p) p f := by
    simp [heap_modify]
  rw [hhead, htail]

/-- The interface object a successful attach leaves behind, as `ptnet_attach_ok`
computes it. -/
def attached_ifnet (w : World) : ifnet :=
  { if_type := IFT_ETHER,
    if_xname := snprintf IFNAMSIZ (w.dev.name ++ toString w.dev.unit),
    if_dname := w.dev.name, if_dunit := w.dev.unit,
    if_baudrate := 10000000000, if_softc := true,
    if_flags := IFF_BROADCAST ||| IFF_MULTICAST ||| IFF_SIMPLEX,
    if_init := some Callback.ptnet_init, if_start := some Callback.ptnet_start,
    ifq_maxlen := 255, ifq_drv_maxlen := 255, altq_ready := true,
    ifi_hdrlen := sizeof_ether_vlan_header,
    if_capabilities := IFCAP_JUMBO_MTU ||| IFCAP_VLAN_MTU,
    if_capenable := IFCAP_JUMBO_MTU ||| IFCAP_VLAN_MTU,
    if_addrlen := ETHER_ADDR_LEN, if_mtu := ETHERMTU,
    lladdr := [0, 0, 0, 0, 0, 0], published := true }

/-- The steps of a successful attach, in order, as `ptnet_attach_ok` computes
them. -/
def attach_events (w : World) : List Event :=
  [Event.mtx_init (snprintf sizeof_core_mtx_name (device_get_nameunit w.dev)),
   Event.if_alloc (some w.next),
   Event.if_initname w.next w.dev.name w.dev.unit,
   Event.if_initbaudrate w.next 10000000000,
   Event.store w.next IfField.if_softc,
   Event.store w.next IfField.if_flags,
   Event.store w.next IfField.if_init,
   Event.store w.next IfField.if_start,
   Event.IFQ_SET_MAXLEN w.next 255,
   Event.store w.next IfField.ifq_drv_maxlen,
   Event.IFQ_SET_READY w.next,
   Event.ifmedia_init,
   Event.ifmedia_add (IFM_ETHER ||| IFM_10G_T ||| IFM_FDX),
   Event.ifmedia_set (IFM_ETHER ||| IFM_10G_T ||| IFM_FDX),
   Event.memset_hwaddr,
   Event.ether_ifattach w.next [0, 0, 0, 0, 0, 0],
   Event.store w.next IfField.ifi_hdrlen,
   Event.store w.next IfField.if_capabilities,
   Event.store w.next IfField.if_capenable]

theorem ptnet_attach_ok (w : World) :
    ptnet_attach w true = (0,
      { dev := w.dev,
        sc :=
          { dev := true, ifp := some w.next,
            media :=
              { ifm_mask := IFM_IMASK, ifm_media := 0,
                ifm_cur := some { ifm_media := IFM_ETHER ||| IFM_10G_T ||| IFM_FDX, ifm_data := 0 },
                ifm_list := [{ ifm_media := IFM_ETHER ||| IFM_10G_T ||| IFM_FDX, ifm_data := 0 }],
                ifm_change := some Callback.ptnet_media_change,
                ifm_status := some Callback.ptnet_media_status },
            core_mtx :=
              { lo_initialized := true,
                lo_name := snprintf sizeof_core_mtx_name (device_get_nameunit w.dev) },
            core_mtx_name := snprintf sizeof_core_mtx_name (device_get_nameunit w.dev),
            hwaddr := [0, 0, 0, 0, 0, 0] },
        heap := (w.next, attached_ifnet w) :: heap_free w.heap w.next,
        next := w.next + 1,
        trace := w.trace ++ attach_events w,
        console := w.console ++ ["ptnet_attach\n"] }) := by
  simp only [ptnet_attach, if_alloc, if_true, ifmedia_set_init_add]
  simp only [PTNET_CORE_LOCK_INIT, mtx_init, World.log, printf,
    if_initname, if_initbaudrate, ifnet_store, IFQ_SET_MAXLEN, IFQ_SET_READY,
    ether_ifattach, heap_modify_head,
    ifnet_zero, device_get_name, device_get_unit, IF_Gbps, ETHER_ADDR_LEN]
  simp [attached_ifnet, attach_events, ETHER_ADDR_LEN]

theorem ptnet_attach_fail (w : World) :
    ptnet_attach w false = (ENOMEM,
      { w with
        sc := { w.sc with
          dev := true, ifp := none,
          core_mtx :=
            { lo_initialized := true,
              lo_name := snprintf sizeof_core_mtx_name (device_get_nameunit w.dev) },
          core_mtx_name := snprintf sizeof_core_mtx_name (device_get_nameunit w.dev) },
        trace := w.trace ++
          [Event.mtx_init (snprintf sizeof_core_mtx_name (device_get_nameunit w.dev)),
           Event.if_alloc none],
        console := w.console ++
          ["ptnet_attach\n", device_get_nameunit w.dev ++ ": " ++ "Failed to allocate ifnet\n"] }) := by
  simp [ptnet_attach, if_alloc, PTNET_CORE_LOCK_INIT, mtx_init, World.log, printf,
    device_printf]

theorem ptnet_detach_attached (w : World) (p : Nat) (hs : device_is_attached w.dev = true)
    (hp : w.sc.ifp = some p) :
    ptnet_detach w = (0,
      { w with
        sc := { w.sc with
          ifp := none,
          media := { w.sc.media with ifm_list := [] },
          core_mtx := { w.sc.core_mtx with lo_initialized := false } },
        heap := heap_free (heap_modify w.heap p (fun i => { i with published := false })) p,
        trace := w.trace ++
          [Event.ether_ifdetach (some p), Event.ifmedia_removeall, Event.if_free (some p),
           Event.mtx_destroy w.sc.core_mtx.lo_initialized],
        console := w.console ++ ["ptnet_detach\n"] }) := by
  simp [ptnet_detach, printf, hs, hp, ether_ifdetach, ifmedia_removeall, if_free,
    PTNET_CORE_LOCK_FINI, mtx_destroy, World.log]

theorem ptnet_detach_not_attached (w : World) (hs : device_is_attached w.dev = false)
    (hp : w.sc.ifp = none) :
    ptnet_detach w = (0,
      { w with
        sc := { w.sc with
          media := { w.sc.media with ifm_list := [] },
          core_mtx := { w.sc.core_mtx with lo_initialized := false } },
        trace := w.trace ++
          [Event.ifmedia_removeall, Event.mtx_destroy w.sc.core_mtx.lo_initialized],
        console := w.console ++ ["ptnet_detach\n"] }) := by
  simp [ptnet_detach, printf, hs, hp, ifmedia_removeall,
    PTNET_CORE_LOCK_FINI, mtx_destroy, World.log]

end Ptnet

namespace Ptnet

/-! ## Probe -/

/-- C1: `ptnet_probe` reports a match (returns `BUS_PROBE_DEFAULT` and sets the
description "ptnet network adapter") exactly when the vendor id and the device
id of the descriptor are the two expected identifiers; in every other case it
returns `ENXIO` and leaves the device record, the soft context, the interface
heap and the trace of kernel calls as they were.  The soft context is never
touched; either way the console gets the line with the function name. -/
theorem ptnet_probe_match_iff (ids : pci_ids) (w : World) :
    (((ptnet_probe ids w).1 = BUS_PROBE_DEFAULT ∧
        (ptnet_probe ids w).2.dev.desc = some "ptnet network adapter" ∧
        (ptnet_probe ids w).2.trace
          = w.trace ++ [Event.device_set_desc "ptnet network adapter"]) ↔
      (pci_get_vendor w.dev = ids.PTNETMAP_PCI_VENDOR_ID ∧
        pci_get_device w.dev = ids.PTNETMAP_PCI_NETIF_ID)) ∧
    ((pci_get_vendor w.dev = ids.PTNETMAP_PCI_VENDOR_ID ∧
        pci_get_device w.dev = ids.PTNETMAP_PCI_NETIF_ID) ∨
      ((ptnet_probe ids w).1 = ENXIO ∧ (ptnet_probe ids w).2.dev = w.dev ∧
        (ptnet_probe ids w).2.trace = w.trace)) ∧
    (ptnet_probe ids w).2.sc = w.sc ∧ (ptnet_probe ids w).2.heap = w.heap ∧
    (ptnet_probe ids w).2.console = w.console ++ ["ptnet_probe\n"] := by
  by_cases hv : w.dev.vendor = ids.PTNETMAP_PCI_VENDOR_ID <;>
    by_cases hd : w.dev.devid = ids.PTNETMAP_PCI_NETIF_ID <;>
    simp [ptnet_probe, pci_get_vendor, pci_get_device, printf, device_set_desc, World.log,
      hv, hd, ENXIO, BUS_PROBE_DEFAULT]

/-! ## Attach and its failure -/

/-- C4: `ptnet_attach` returns `ENOMEM` exactly when the interface allocation
fails and 0 exactly when it succeeds.  When it fails the core lock is already
initialized, `sc->ifp` is `NULL`, the media registry and the interface heap are
as before, and the only kernel calls made are `mtx_init` and the failed
`if_alloc`.  Detach, suspend, resume and shutdown return 0 on every context. -/
theorem ptnet_attach_fails_iff_alloc_fails (w : World) (alloc_ok : Bool) :
    ((ptnet_attach w alloc_ok).1 = ENOMEM ↔ alloc_ok = false) ∧
    ((ptnet_attach w alloc_ok).1 = 0 ↔ alloc_ok = true) ∧
    (ptnet_attach w false).2.sc.core_mtx.lo_initialized = true ∧
    (ptnet_attach w false).2.sc.ifp = none ∧
    (ptnet_attach w false).2.sc.media = w.sc.media ∧
    (ptnet_attach w false).2.heap = w.heap ∧
    (ptnet_attach w false).2.trace
      = w.trace ++ [Event.mtx_init (snprintf sizeof_core_mtx_name (device_get_nameunit w.dev)),
                    Event.if_alloc none] ∧
    (ptnet_detach w).1 = 0 ∧ (ptnet_suspend w).1 = 0 ∧ (ptnet_resume w).1 = 0 ∧
    (ptnet_shutdown w).1 = 0 := by
  refine ⟨?_, ?_, ?_, ?_, ?_, ?_, ?_, rfl, rfl, rfl, rfl⟩
  · cases alloc_ok <;> simp [ptnet_attach, if_alloc, ENOMEM]
  · cases alloc_ok <;> simp [ptnet_attach, if_alloc, ENOMEM]
  all_goals
    simp [ptnet_attach, if_alloc, PTNET_CORE_LOCK_INIT, mtx_init, World.log, printf,
      device_printf]

/-! ## Media -/

theorem IFM_TYPE_with_other_bits (m other : Nat) :
    IFM_TYPE (with_other_bits m other) = IFM_TYPE m := by
  unfold IFM_TYPE with_other_bits
  rw [Nat.and_distrib_right, Nat.and_assoc, Nat.and_self, Nat.and_assoc]
  have h : (0xffffffff ^^^ IFM_NMASK) &&& IFM_NMASK = 0 := by decide
  rw [h, Nat.and_zero, Nat.or_zero]

/-- C6: `ptnet_media_change` returns 0 exactly when the media-type field of the
media word held in the context is Ethernet and `EINVAL` for every other type
(Token Ring for one); the result is the same whatever the subtype, option and
instance bits of the word are, and the world (interface and context included)
is left as it was. -/
theorem ptnet_media_change_iff_ether (w : World) (ifp : Nat) :
    ((ptnet_media_change w ifp).1 = 0 ↔ IFM_TYPE w.sc.media.ifm_media = IFM_ETHER) ∧
    ((ptnet_media_change w ifp).1 = EINVAL ↔ IFM_TYPE w.sc.media.ifm_media ≠ IFM_ETHER) ∧
    (∀ other : Nat,
      (ptnet_media_change (w.with_media_word (with_other_bits w.sc.media.ifm_media other)) ifp).1
        = (ptnet_media_change w ifp).1) ∧
    (∀ other : Nat, (ptnet_media_change (w.with_media_word (with_other_bits IFM_TOKEN other)) ifp).1
        = EINVAL) ∧
    (∀ other : Nat, (ptnet_media_change (w.with_media_word (with_other_bits IFM_ETHER other)) ifp).1
        = 0) ∧
    (ptnet_media_change w ifp).2 = w := by
  refine ⟨?_, ?_, ?_, ?_, ?_, ?_⟩
  · by_cases h : IFM_TYPE w.sc.media.ifm_media = IFM_ETHER <;>
      simp [ptnet_media_change, h, EINVAL]
  · by_cases h : IFM_TYPE w.sc.media.ifm_media = IFM_ETHER <;>
      simp [ptnet_media_change, h, EINVAL]
  · intro other
    by_cases h : IFM_TYPE w.sc.media.ifm_media = IFM_ETHER <;>
      simp [ptnet_media_change, World.with_media_word, IFM_TYPE_with_other_bits, h]
  · intro other
    have h : IFM_TYPE IFM_TOKEN ≠ IFM_ETHER := by decide
    simp [ptnet_media_change, World.with_media_word, IFM_TYPE_with_other_bits, h]
  · intro other
    have h : IFM_TYPE IFM_ETHER = IFM_ETHER := by decide
    simp [ptnet_media_change, World.with_media_word, IFM_TYPE_with_other_bits, h]
  · by_cases h : IFM_TYPE w.sc.media.ifm_media = IFM_ETHER <;>
      simp [ptnet_media_change, h]

/-- C7: `ptnet_media_status` sets the status to exactly `IFM_AVALID | IFM_ACTIVE`
and the active mode to exactly `IFM_ETHER | IFM_10G_T | IFM_FDX`, leaves the other
fields of the request record and the whole world alone, gives the same status
and active mode for any other world, interface and prior record, and never
gives what the `IFM_NONE` branch would give. -/
theorem ptnet_media_status_constant (w : World) (ifp : Nat) (ifmr : ifmediareq) :
    (ptnet_media_status w ifp ifmr).2.ifm_status = IFM_AVALID ||| IFM_ACTIVE ∧
    (ptnet_media_status w ifp ifmr).2.ifm_active = IFM_ETHER ||| IFM_10G_T ||| IFM_FDX ∧
    (ptnet_media_status w ifp ifmr).2
      = { ifmr with ifm_status := IFM_AVALID ||| IFM_ACTIVE,
                    ifm_active := IFM_ETHER ||| IFM_10G_T ||| IFM_FDX } ∧
    (ptnet_media_status w ifp ifmr).1 = w ∧
    (∀ (w2 : World) (ifp2 : Nat) (ifmr2 : ifmediareq),
      (ptnet_media_status w2 ifp2 ifmr2).2.ifm_status
        = (ptnet_media_status w ifp ifmr).2.ifm_status ∧
      (ptnet_media_status w2 ifp2 ifmr2).2.ifm_active
        = (ptnet_media_status w ifp ifmr).2.ifm_active) ∧
    (ptnet_media_status w ifp ifmr).2.ifm_active ≠ IFM_ETHER ||| IFM_NONE ∧
    (ptnet_media_status w ifp ifmr).2.ifm_status ≠ IFM_AVALID := by
  refine ⟨rfl, ?_, ?_, rfl, fun _ _ _ => ⟨rfl, rfl⟩, ?_, ?_⟩
  · simp [ptnet_media_status, Nat.lor_assoc]
  · simp [ptnet_media_status, Nat.lor_assoc]
  · have h : IFM_ETHER ||| (IFM_10G_T ||| IFM_FDX) ≠ IFM_ETHER ||| IFM_NONE := by decide
    simpa [ptnet_media_status] using h
  · have h : IFM_AVALID ||| IFM_ACTIVE ≠ IFM_AVALID := by decide
    simpa [ptnet_media_status] using h

/-! ## Suspend, resume, shutdown -/

theorem power_run_eq (ops : List PowerOp) (w : World) :
    power_run w ops = (List.replicate ops.length 0, w) := by
  induction ops with
  | nil => rfl
  | cons op ops ih =>
    cases op <;>
      simp [power_run, power_step, ptnet_suspend, ptnet_resume, ptnet_shutdown, ih,
        List.replicate_succ]

/-- C8: `ptnet_suspend`, `ptnet_resume` and `ptnet_shutdown` each return 0 and
leave the whole world, every field of the context included, as it was;
`ptnet_shutdown` returns what `ptnet_suspend` returns; so after any sequence of
the three every call returned 0, the context is unchanged and the media status
reported is the one reported before. -/
theorem ptnet_power_ops_are_noops (w : World) (ops : List PowerOp) (ifp : Nat)
    (ifmr : ifmediareq) :
    ptnet_suspend w = (0, w) ∧ ptnet_resume w = (0, w) ∧ ptnet_shutdown w = (0, w) ∧
    ptnet_shutdown w = ptnet_suspend w ∧
    (power_run w ops).1 = List.replicate ops.length 0 ∧
    (power_run w ops).2 = w ∧
    (power_run w ops).2.sc = w.sc ∧
    (ptnet_media_status (power_run w ops).2 ifp ifmr).2 = (ptnet_media_status w ifp ifmr).2 := by
  refine ⟨rfl, rfl, rfl, rfl, ?_, ?_, ?_, ?_⟩ <;> simp [power_run_eq]

/-! ## The attached interface -/

theorem ptnet_name_fits (u : Nat) (hu : u < 2 ^ 31) :
    ("ptnet" ++ toString u).length < IFNAMSIZ := by
  have h1 : (Nat.repr u).length ≤ 10 := Nat.repr_length u 10 (by decide) (by omega)
  have h2 : ("ptnet" ++ toString u).length = 5 + (Nat.repr u).length := by
    rw [String.length_append]
    rfl
  rw [h2]
  unfold IFNAMSIZ
  omega

/-- C5: when `ptnet_attach` succeeds on a device with bus name `n` and unit `u`
(`n` followed by `u` fitting the `IFNAMSIZ` bytes of the interface name, as it
does for "ptnet" and any unit), the interface is named `n` followed by `u`, with
driver name `n` and unit `u`; its baud rate is 10,000,000,000, its flags are
exactly broadcast, multicast and simplex, its header length is the size of the
Ethernet header with a VLAN tag, its capabilities include jumbo MTU and VLAN MTU
and the enabled set is the advertised set, the media registry holds exactly the
mode Ethernet, 10GBASE-T, full duplex, which is the selected one, and the
hardware address is six zero bytes, with which the interface was published. -/
theorem ptnet_attach_interface_identity (w : World) (alloc_ok : Bool)
    (hok : (ptnet_attach w alloc_ok).1 = 0)
    (hfit : (device_get_name w.dev ++ toString (device_get_unit w.dev)).length < IFNAMSIZ) :
    ∃ (p : Nat) (i : ifnet),
      (ptnet_attach w alloc_ok).2.sc.ifp = some p ∧
      heap_get (ptnet_attach w alloc_ok).2.heap p = some i ∧
      i.if_xname = device_get_name w.dev ++ toString (device_get_unit w.dev) ∧
      i.if_dname = device_get_name w.dev ∧ i.if_dunit = device_get_unit w.dev ∧
      i.if_baudrate = 10000000000 ∧
      i.if_flags = IFF_BROADCAST ||| IFF_MULTICAST ||| IFF_SIMPLEX ∧
      i.ifi_hdrlen = sizeof_ether_vlan_header ∧
      i.if_capabilities &&& IFCAP_JUMBO_MTU = IFCAP_JUMBO_MTU ∧
      i.if_capabilities &&& IFCAP_VLAN_MTU = IFCAP_VLAN_MTU ∧
      i.if_capenable = i.if_capabilities ∧
      (ptnet_attach w alloc_ok).2.sc.media.ifm_list
        = [{ ifm_media := IFM_ETHER ||| IFM_10G_T ||| IFM_FDX, ifm_data := 0 }] ∧
      (ptnet_attach w alloc_ok).2.sc.media.ifm_cur
        = some { ifm_media := IFM_ETHER ||| IFM_10G_T ||| IFM_FDX, ifm_data := 0 } ∧
      (ptnet_attach w alloc_ok).2.sc.hwaddr = [0, 0, 0, 0, 0, 0] ∧
      i.lladdr = [0, 0, 0, 0, 0, 0] ∧ i.published = true ∧
      (ptnet_attach w alloc_ok).2.trace.filter Event.is_ether_ifattach
        = w.trace.filter Event.is_ether_ifattach ++ [Event.ether_ifattach p [0, 0, 0, 0, 0, 0]] := by
  cases alloc_ok with
  | false => simp [ptnet_attach_fail, ENOMEM] at hok
  | true =>
    refine ⟨w.next, attached_ifnet w, ?_, ?_, ?_⟩
    · rw [ptnet_attach_ok]
    · rw [ptnet_attach_ok]
      simp [heap_get]
    · rw [ptnet_attach_ok]
      have hj : (IFCAP_JUMBO_MTU ||| IFCAP_VLAN_MTU) &&& IFCAP_JUMBO_MTU = IFCAP_JUMBO_MTU := by
        decide
      have hv : (IFCAP_JUMBO_MTU ||| IFCAP_VLAN_MTU) &&& IFCAP_VLAN_MTU = IFCAP_VLAN_MTU := by
        decide
      refine ⟨snprintf_fits _ _ hfit, rfl, rfl, rfl, rfl, rfl, hj, hv,
        rfl, rfl, rfl, rfl, rfl, rfl, ?_⟩
      simp [attach_events, Event.is_ether_ifattach]

/-- C5 (witness): the device "ptnet" with unit 0 gets the interface "ptnet0". -/
theorem ptnet_attach_interface_identity_witness :
    (ptnet_attach (World.fresh 0 0 "ptnet" 0) true).1 = 0 ∧
    (device_get_name (World.fresh 0 0 "ptnet" 0).dev
      ++ toString (device_get_unit (World.fresh 0 0 "ptnet" 0).dev)).length < IFNAMSIZ ∧
    ∃ (p : Nat) (i : ifnet),
      (ptnet_attach (World.fresh 0 0 "ptnet" 0) true).2.sc.ifp = some p ∧
      heap_get (ptnet_attach (World.fresh 0 0 "ptnet" 0) true).2.heap p = some i ∧
      i.if_xname = "ptnet0" ∧ i.if_baudrate = 10000000000 := by
  refine ⟨by decide, by decide, ?_⟩
  obtain ⟨p, i, h1, h2, h3, _, _, h6, _⟩ :=
    ptnet_attach_interface_identity (World.fresh 0 0 "ptnet" 0) true (by decide) (by decide)
  exact ⟨p, i, h1, h2, h3, h6⟩

/-! ## Order of the steps of attach -/

/-- C10 (counterexample): in the successful attach of the device "ptnet" with
unit 0, three stores to the interface come after its publication: the header
length, the capabilities and the enabled capabilities; none of them comes
before.  So publication is not the final configuration step. -/
theorem ptnet_attach_stores_after_publication :
    (ptnet_attach (World.fresh 0 0 "ptnet" 0) true).1 = 0 ∧
    after_publication (ptnet_attach (World.fresh 0 0 "ptnet" 0) true).2.trace
      = [Event.store 1 IfField.ifi_hdrlen, Event.store 1 IfField.if_capabilities,
         Event.store 1 IfField.if_capenable] ∧
    Event.store 1 IfField.ifi_hdrlen
      ∉ before_publication (ptnet_attach (World.fresh 0 0 "ptnet" 0) true).2.trace ∧
    ¬ publication_is_final (ptnet_attach (World.fresh 0 0 "ptnet" 0) true).2.trace := by
  decide

/-- C10 (as amended): in every successful `ptnet_attach` the interface is
published once, by `ether_ifattach` with the all-zero hardware address, after
the lock, the allocation, the identity, the callbacks, the send queue, the media
mode and the clearing of the address, and before exactly three more stores to
the interface: the header length, the capabilities and the enabled
capabilities, which are the last steps. -/
theorem ptnet_attach_publication_order (w : World) (alloc_ok : Bool)
    (hok : (ptnet_attach w alloc_ok).1 = 0) :
    ∃ (p : Nat) (evs : List Event),
      (ptnet_attach w alloc_ok).2.sc.ifp = some p ∧
      (ptnet_attach w alloc_ok).2.trace = w.trace ++ evs ∧
      before_publication evs =
        [Event.mtx_init (snprintf sizeof_core_mtx_name (device_get_nameunit w.dev)),
         Event.if_alloc (some p),
         Event.if_initname p (device_get_name w.dev) (device_get_unit w.dev),
         Event.if_initbaudrate p 10000000000,
         Event.store p IfField.if_softc,
         Event.store p IfField.if_flags,
         Event.store p IfField.if_init,
         Event.store p IfField.if_start,
         Event.IFQ_SET_MAXLEN p 255,
         Event.store p IfField.ifq_drv_maxlen,
         Event.IFQ_SET_READY p,
         Event.ifmedia_init,
         Event.ifmedia_add (IFM_ETHER ||| IFM_10G_T ||| IFM_FDX),
         Event.ifmedia_set (IFM_ETHER ||| IFM_10G_T ||| IFM_FDX),
         Event.memset_hwaddr] ∧
      evs.filter Event.is_ether_ifattach = [Event.ether_ifattach p [0, 0, 0, 0, 0, 0]] ∧
      after_publication evs =
        [Event.store p IfField.ifi_hdrlen, Event.store p IfField.if_capabilities,
         Event.store p IfField.if_capenable] := by
  cases alloc_ok with
  | false => simp [ptnet_attach_fail, ENOMEM] at hok
  | true =>
    refine ⟨w.next, attach_events w, ?_, ?_, ?_, ?_, ?_⟩
    · rw [ptnet_attach_ok]
    · rw [ptnet_attach_ok]
    · simp [attach_events, before_publication, Event.is_ether_ifattach, device_get_name,
        device_get_unit]
    · simp [attach_events, Event.is_ether_ifattach]
    · simp [attach_events, after_publication, Event.is_ether_ifattach]

/-- C10 (witness): the order of the steps for the device "ptnet" with unit 0. -/
theorem ptnet_attach_publication_order_witness :
    (ptnet_attach (World.fresh 0 0 "ptnet" 0) true).1 = 0 ∧
    ∃ (p : Nat) (evs : List Event),
      (ptnet_attach (World.fresh 0 0 "ptnet" 0) true).2.trace
        = (World.fresh 0 0 "ptnet" 0).trace ++ evs ∧
      after_publication evs =
        [Event.store p IfField.ifi_hdrlen, Event.store p IfField.if_capabilities,
         Event.store p IfField.if_capenable] := by
  refine ⟨by decide, ?_⟩
  obtain ⟨p, evs, _, h2, _, _, h5⟩ :=
    ptnet_attach_publication_order (World.fresh 0 0 "ptnet" 0) true (by decide)
  exact ⟨p, evs, h2, h5⟩

/-! ## Attach followed by detach -/

theorem device_attach_ok (w : World) :
    device_attach w true =
      (0, { (ptnet_attach w true).2 with
              dev := { w.dev with state := device_state.DS_ATTACHED } }) := by
  simp [device_attach, ptnet_attach_ok]

theorem device_attach_fail (w : World) :
    device_attach w false =
      (ENOMEM, { (ptnet_attach w false).2 with
              dev := { w.dev with state := device_state.DS_NOTPRESENT } }) := by
  simp [device_attach, ptnet_attach_fail, ENOMEM]

/-- C2: on a fresh context on which `ptnet_attach` succeeds, once the host has
recorded the device as attached, `ptnet_detach` returns 0 and leaves `sc->ifp`
`NULL`, no interface object, an empty media registry and a core lock that is no
longer initialized; over the whole history the interface was unpublished once
and then freed once, and the lock was initialized once and destroyed once,
while it was initialized. -/
theorem attach_then_detach_releases (vendor devid : Nat) (name : String) (unit : Nat)
    (alloc_ok : Bool)
    (hok : (ptnet_attach (World.fresh vendor devid name unit) alloc_ok).1 = 0) :
    ∃ p : Nat,
      (device_attach (World.fresh vendor devid name unit) alloc_ok).2.sc.ifp = some p ∧
      (attach_detach (World.fresh vendor devid name unit) alloc_ok).1 = 0 ∧
      (attach_detach (World.fresh vendor devid name unit) alloc_ok).2.sc.ifp = none ∧
      (attach_detach (World.fresh vendor devid name unit) alloc_ok).2.heap = [] ∧
      (attach_detach (World.fresh vendor devid name unit) alloc_ok).2.sc.media.ifm_list = [] ∧
      (attach_detach (World.fresh vendor devid name unit) alloc_ok).2.sc.core_mtx.lo_initialized
        = false ∧
      (attach_detach (World.fresh vendor devid name unit) alloc_ok).2.trace
        = (device_attach (World.fresh vendor devid name unit) alloc_ok).2.trace ++
          [Event.ether_ifdetach (some p), Event.ifmedia_removeall, Event.if_free (some p),
           Event.mtx_destroy true] ∧
      (attach_detach (World.fresh vendor devid name unit) alloc_ok).2.trace.filter
          Event.is_ether_ifdetach = [Event.ether_ifdetach (some p)] ∧
      (attach_detach (World.fresh vendor devid name unit) alloc_ok).2.trace.filter
          Event.is_if_free = [Event.if_free (some p)] ∧
      ((attach_detach (World.fresh vendor devid name unit) alloc_ok).2.trace.filter
          Event.is_mtx_init).length = 1 ∧
      (attach_detach (World.fresh vendor devid name unit) alloc_ok).2.trace.filter
          Event.is_mtx_destroy = [Event.mtx_destroy true] := by
  cases alloc_ok with
  | false => simp [ptnet_attach_fail, ENOMEM] at hok
  | true =>
    have hd := ptnet_detach_attached
      (device_attach (World.fresh vendor devid name unit) true).2 1
      (by rw [device_attach_ok]; rfl) (by rw [device_attach_ok, ptnet_attach_ok]; rfl)
    refine ⟨1, by rw [device_attach_ok, ptnet_attach_ok]; rfl, ?_⟩
    unfold attach_detach
    rw [hd]
    simp [device_attach_ok, ptnet_attach_ok, World.fresh, heap_free, heap_modify, attach_events,
      Event.is_ether_ifdetach, Event.is_if_free, Event.is_mtx_init, Event.is_mtx_destroy]

/-- C2 (witness): the device "ptnet" with unit 0, attached and detached. -/
theorem attach_then_detach_releases_witness :
    (ptnet_attach (World.fresh 0 0 "ptnet" 0) true).1 = 0 ∧
    ∃ p : Nat,
      (device_attach (World.fresh 0 0 "ptnet" 0) true).2.sc.ifp = some p ∧
      (attach_detach (World.fresh 0 0 "ptnet" 0) true).1 = 0 ∧
      (attach_detach (World.fresh 0 0 "ptnet" 0) true).2.sc.ifp = none := by
  refine ⟨by decide, ?_⟩
  obtain ⟨p, h1, h2, h3, _⟩ :=
    attach_then_detach_releases 0 0 "ptnet" 0 true (by decide)
  exact ⟨p, h1, h2, h3⟩

/-! ## Detach without a completed attach -/

/-- C3 (counterexample): after an attach of the device "ptnet" with unit 0 that
failed at the interface allocation, `ptnet_detach` calls `ifmedia_removeall`
although no `ifmedia_init` ever ran; on the fresh context it also calls
`mtx_destroy` on a lock that is not initialized.  Neither detach is safe in the
sense of the claim. -/
theorem ptnet_detach_tears_down_uninitialized :
    (ptnet_detach (ptnet_attach (World.fresh 0 0 "ptnet" 0) false).2).2.trace
      = [Event.mtx_init "ptnet0", Event.if_alloc none, Event.ifmedia_removeall,
         Event.mtx_destroy true] ∧
    ¬ detach_safe (ptnet_attach (World.fresh 0 0 "ptnet" 0) false).2 ∧
    (ptnet_detach (World.fresh 0 0 "ptnet" 0)).2.trace
      = [Event.ifmedia_removeall, Event.mtx_destroy false] ∧
    ¬ detach_safe (World.fresh 0 0 "ptnet" 0) := by
  decide

/-- C3 (as amended): on a context that never completed attach (the host does
not report the device attached and the handle is `NULL`; attach either never ran
or failed at the interface allocation) `ptnet_detach` returns 0, calls neither
`ether_ifdetach` nor `if_free`, leaves the interface heap alone and the handle
`NULL`, and makes exactly two kernel calls, without any guard: `ifmedia_removeall`
and then `mtx_destroy`.  The lock it destroys is initialized whenever attach
ran. -/
theorem ptnet_detach_never_attached (w0 : World) (ran : Bool)
    (hs : device_is_attached w0.dev = false) (hp : w0.sc.ifp = none) :
    (ptnet_detach (never_attached_context w0 ran)).1 = 0 ∧
    (ptnet_detach (never_attached_context w0 ran)).2.trace
      = (never_attached_context w0 ran).trace ++
        [Event.ifmedia_removeall, Event.mtx_destroy (ran || w0.sc.core_mtx.lo_initialized)] ∧
    (ptnet_detach (never_attached_context w0 ran)).2.heap = w0.heap ∧
    (ptnet_detach (never_attached_context w0 ran)).2.sc.ifp = none ∧
    (ptnet_detach (never_attached_context w0 ran)).2.sc.media.ifm_list = [] ∧
    (ptnet_detach (never_attached_context w0 ran)).2.sc.core_mtx.lo_initialized = false := by
  cases ran with
  | false =>
    simp [never_attached_context, ptnet_detach_not_attached w0 hs hp, hp]
  | true =>
    have hs2 : device_is_attached (ptnet_attach w0 false).2.dev = false := by
      rw [ptnet_attach_fail]
      exact hs
    have hp2 : (ptnet_attach w0 false).2.sc.ifp = none := by
      rw [ptnet_attach_fail]
    simp [never_attached_context, ptnet_detach_not_attached _ hs2 hp2, hp2]
    simp [ptnet_attach_fail]

/-- C3 (witness): the fresh context of the device "ptnet" with unit 0, after an
attach that failed at the interface allocation. -/
theorem ptnet_detach_never_attached_witness :
    device_is_attached (World.fresh 0 0 "ptnet" 0).dev = false ∧
    (World.fresh 0 0 "ptnet" 0).sc.ifp = none ∧
    (ptnet_detach (never_attached_context (World.fresh 0 0 "ptnet" 0) true)).1 = 0 ∧
    (ptnet_detach (never_attached_context (World.fresh 0 0 "ptnet" 0) true)).2.sc.ifp = none :=
  ⟨by decide, by decide,
    (ptnet_detach_never_attached (World.fresh 0 0 "ptnet" 0) true (by decide) (by decide)).1,
    (ptnet_detach_never_attached (World.fresh 0 0 "ptnet" 0) true
      (by decide) (by decide)).2.2.2.1⟩

/-! ## The lifecycle invariant -/

theorem null_handle_passed_append (t u : List Event) :
    null_handle_passed (t ++ u) = (null_handle_passed t || null_handle_passed u) := by
  simp [null_handle_passed]

theorem lifecycle_inv_fresh (vendor devid : Nat) (name : String) (unit : Nat) :
    lifecycle_inv (World.fresh vendor devid name unit) := by
  simp [lifecycle_inv, World.fresh, softc_zero, device_is_attached, null_handle_passed]

theorem lifecycle_inv_step (w : World) (op : HostOp) (h : lifecycle_inv w) :
    lifecycle_inv (host_step w op) := by
  obtain ⟨hiff, hstate, hnull⟩ := h
  cases op with
  | attach alloc_ok =>
    by_cases hst : w.dev.state = device_state.DS_NOTPRESENT
    · cases alloc_ok with
      | true =>
        simp [host_step, hst, device_attach_ok, ptnet_attach_ok, lifecycle_inv,
          device_is_attached, null_handle_passed_append, hnull]
        simp [null_handle_passed, attach_events]
      | false =>
        simp [host_step, hst, device_attach_fail, ptnet_attach_fail, lifecycle_inv,
          device_is_attached, null_handle_passed_append, hnull]
        simp [null_handle_passed]
    · simp [host_step, hst]
      exact ⟨hiff, hstate, hnull⟩
  | detach =>
    rcases hstate with hst | hst
    · simp [host_step, device_detach, hst]
      exact ⟨hiff, Or.inl hst, hnull⟩
    · have hatt : device_is_attached w.dev = true := by simp [device_is_attached, hst]
      obtain ⟨p, hp⟩ := Option.ne_none_iff_exists'.mp (hiff.mpr hatt)
      simp [host_step, device_detach, hst, ptnet_detach_attached w p hatt hp, lifecycle_inv,
        device_is_attached, null_handle_passed_append, hnull]
      simp [null_handle_passed]
  | suspend => exact ⟨hiff, hstate, hnull⟩
  | resume => exact ⟨hiff, hstate, hnull⟩
  | shutdown => exact ⟨hiff, hstate, hnull⟩

theorem lifecycle_inv_run (ops : List HostOp) (w : World) (h : lifecycle_inv w) :
    lifecycle_inv (host_run w ops) := by
  induction ops generalizing w with
  | nil => exact h
  | cons op ops ih => exact ih (host_step w op) (lifecycle_inv_step w op h)

/-- C9: in every state the host can reach from a fresh context by attach
(succeeding or failing), detach, suspend, resume and shutdown requests,
`sc->ifp` is not `NULL` exactly when the host reports the device attached; so
the handle is set whenever that report, the guard of `ether_ifdetach` in detach,
holds, and no `NULL` handle has been passed to `ether_ifdetach` or `if_free`. -/
theorem ifp_set_iff_attached (vendor devid : Nat) (name : String) (unit : Nat)
    (ops : List HostOp) :
    ((host_run (World.fresh vendor devid name unit) ops).sc.ifp ≠ none ↔
      device_is_attached (host_run (World.fresh vendor devid name unit) ops).dev = true) ∧
    ((∃ p : Nat, (host_run (World.fresh vendor devid name unit) ops).sc.ifp = some p) ∨
      device_is_attached (host_run (World.fresh vendor devid name unit) ops).dev = false) ∧
    null_handle_passed (host_run (World.fresh vendor devid name unit) ops).trace = false := by
  have h := lifecycle_inv_run ops _ (lifecycle_inv_fresh vendor devid name unit)
  obtain ⟨hiff, _, hnull⟩ := h
  refine ⟨hiff, ?_, hnull⟩
  by_cases ha : device_is_attached (host_run (World.fresh vendor devid name unit) ops).dev = true
  · exact Or.inl (Option.ne_none_iff_exists'.mp (hiff.mpr ha))
  · exact Or.inr (by simpa using ha)

end Ptnet
